import Mathlib

/-!
Verification development for a Callendar–Van Dusen RTD calculator
(`cvd.py`).  The program keeps per-standard polynomial coefficients
`A`, `B`, `C` and, given a reference resistance `r0` and a measured
resistance `r_measured`, symbolically solves the equation
`r = r0*(1.0 + A*t + B*t**2 + C*(t - 100.0)**3)` for `t` with
`sympy.solve`, substitutes `r = r_measured` into entry `1` of the
returned solution list, and returns the result.  A small script at the
bottom of the file evaluates one fixed reading and prints two lines.

Numbers are embedded as exact decimal rationals and reals (the Python
floats of the source differ from these decimals by less than 1e-16
relative error, which is irrelevant to every property proved below, as
all of them hold with margins of many orders of magnitude).
-/

/-- Calibration model of `cvd.py` (class `CallendarVanDusen`): the three
coefficients selected by the constructor.  The symbols `r`, `t` of the
Python object carry no data and are not represented. -/
structure CallendarVanDusen where
  A : ℚ
  B : ℚ
  C : ℚ
deriving DecidableEq

/-- Constructor dispatch of `CallendarVanDusen.__init__` (`cvd.py`,
lines 29–55): the string `standard` selects the table row, `subzero`
selects the cubic coefficient `C` (else `C = 0.0`), and an unknown
standard raises `ValueError("Unknown standard %s" % standard)`, which is
modelled as `Except.error` carrying the formatted message. -/
def CallendarVanDusen.init (standard : String) (subzero : Bool) :
    Except String CallendarVanDusen :=
  if standard = ("DIN43760") then
    Except.ok ⟨3.9080e-3, -5.8019e-7, if subzero then -4.2735e-12 else 0⟩
  else if standard = ("American") then
    Except.ok ⟨3.9692e-3, -5.8495e-7, if subzero then -4.2325e-12 else 0⟩
  else if standard = ("ITS-90") then
    Except.ok ⟨3.9848e-3, -5.870e-7, if subzero then -4.0000e-12 else 0⟩
  else
    Except.error ("Unknown standard " ++ standard)

/-- Principal square root of a real number as the symbolic solver writes
it inside the quadratic formula: the nonnegative real root for a
nonnegative radicand, and the purely imaginary `sqrt(-x)*I` for a
negative radicand. -/
noncomputable def sqrtC (x : ℝ) : ℂ :=
  if 0 ≤ x then ((Real.sqrt x : ℝ) : ℂ)
  else ((Real.sqrt (-x) : ℝ) : ℂ) * Complex.I

/-- First entry of the solution list the solver returns for
`a*t^2 + b*t + c = 0`: the quadratic-formula branch whose radical term
carries the negative coefficient, `-b/(2a) - sqrt(b^2-4ac)/(2|a|)`. -/
noncomputable def firstRoot (a b c : ℝ) : ℂ :=
  ((-b / (2 * a) : ℝ) : ℂ) - (((2 * |a|)⁻¹ : ℝ) : ℂ) * sqrtC (b ^ 2 - 4 * a * c)

/-- Second entry of the solution list the solver returns for
`a*t^2 + b*t + c = 0`: the branch `-b/(2a) + sqrt(b^2-4ac)/(2|a|)`.
This is the entry `temperature` selects with `s[1]`. -/
noncomputable def secondRoot (a b c : ℝ) : ℂ :=
  ((-b / (2 * a) : ℝ) : ℂ) + (((2 * |a|)⁻¹ : ℝ) : ℂ) * sqrtC (b ^ 2 - 4 * a * c)

/-- Solution list produced by `sympy.solve` for the quadratic equation
`a*t^2 + b*t + c = 0` with `a ≠ 0`, i.e. for the `C = 0` path of
`temperature` (`cvd.py`, line 66).  The solver computes the two
quadratic-formula roots `-b/(2a) ∓ sqrt(b^2 - 4ac)/(2a)` and hands the
list back in canonical expression order (`solve` sorts its output with
`default_sort_key`, which puts the root whose radical term carries the
negative coefficient first); over the reals this order is
`[-b/(2a) - sqrt(d)/(2|a|), -b/(2a) + sqrt(d)/(2|a|)]`.  For the
coefficient signs produced by `temperature` with a positive reference
resistance (leading coefficient `-r0*B > 0`) this coincides with the
unsorted return order of the internal quadratic routine of the solver,
so the model does not depend on whether the final canonical sort is
applied.  The equation is solved with `r` symbolic, so the list always
has exactly two entries; substituting a measured resistance into an
entry afterwards is the same as evaluating these closed forms. -/
noncomputable def quadSolutions (a b c : ℝ) : List ℂ :=
  [firstRoot a b c, secondRoot a b c]

/-- Output of the symbolic solver on the cubic (`C ≠ 0`) form of the
equation.  The solver returns the three cubic-formula expressions, but
the order in which it returns them is not fixed by any contract of the
solver and is not determined by the repository, so the model leaves this
list unspecified. -/
noncomputable def unspecifiedCubic (_m : CallendarVanDusen) (_r0 _r : ℝ) :
    List ℂ :=
  Classical.choice ⟨[]⟩

/-- The list `s = solve(cvd, self.t)` of `cvd.py`, line 66, for the
equation `r = r0*(1.0 + A*t + B*t**2 + C*(t-100.0)**3)`.  With `r0 = 0`
the equation degenerates to `r = 0.0`, which no longer contains `t`, and
the solver returns the empty list.  Otherwise, with `C = 0`, the
equation is the quadratic
`(-r0*B)*t^2 + (-r0*A)*t + (r - r0) = 0` (written as `lhs - rhs`), and
with `C ≠ 0` it is a cubic whose solver output order is unspecified. -/
noncomputable def CallendarVanDusen.solveList (m : CallendarVanDusen)
    (r0 r : ℝ) : List ℂ :=
  if r0 = 0 then []
  else if m.C = 0 then
    quadSolutions (-(r0 * (m.B : ℝ))) (-(r0 * (m.A : ℝ))) (r - r0)
  else unspecifiedCubic m r0 r

/-- `CallendarVanDusen.temperature` (`cvd.py`, lines 57–68): index the
solution list at position `1` and substitute the measured resistance.
`none` models the uncaught `IndexError` raised when the list has fewer
than two entries; a `some` value with nonzero imaginary part models the
complex expression the function silently returns when the discriminant
is negative. -/
noncomputable def CallendarVanDusen.temperature (m : CallendarVanDusen)
    (r0 r : ℝ) : Option ℂ :=
  (m.solveList r0 r).get? 1

/-- Forward Callendar–Van Dusen polynomial, the right hand side of the
equation on `cvd.py`, line 65. -/
def CallendarVanDusen.resistance (m : CallendarVanDusen) (r0 t : ℝ) : ℝ :=
  r0 * (1 + (m.A : ℝ) * t + (m.B : ℝ) * t ^ 2 + (m.C : ℝ) * (t - 100) ^ 3)

/-- Coefficients produced by `CallendarVanDusen()` with the default
arguments `standard="DIN43760"`, `subzero=False`. -/
def dinQuad : CallendarVanDusen := ⟨3.9080e-3, -5.8019e-7, 0⟩

/-- Coefficients produced by the `American` standard with
`subzero=False`. -/
def americanQuad : CallendarVanDusen := ⟨3.9692e-3, -5.8495e-7, 0⟩

/-- Coefficients produced by the `ITS-90` standard with
`subzero=False`. -/
def its90Quad : CallendarVanDusen := ⟨3.9848e-3, -5.870e-7, 0⟩

/-- The module-level script of `cvd.py`, lines 70–74: construct the
model with the default standard and subzero flag, evaluate the fixed
reading `r0 = 500.0`, `r_measured = 200.0`, and print two lines, each
rendering one number with the `%g` format (abstracted here as `fmt`).
`none` models a run that dies with an exception instead of printing:
a `ValueError` from the constructor, the missing-root `IndexError`
inside `temperature`, or the failure of `%g` to render a value that is
not a real number.  The sequential statements of the script are modelled
with `Option.bind`. -/
noncomputable def scriptRun (fmt : ℝ → String) : Option (List String) :=
  (CallendarVanDusen.init ("DIN43760") false).toOption.bind fun cvd =>
    (cvd.temperature 500 200).bind fun t =>
      if t.im = 0 then
        some ["Resistance = " ++ fmt 200, "Temperature = " ++ fmt t.re]
      else none

lemma init_din : CallendarVanDusen.init ("DIN43760") false = Except.ok dinQuad := rfl

lemma init_american : CallendarVanDusen.init ("American") false = Except.ok americanQuad := rfl

lemma init_its90 : CallendarVanDusen.init ("ITS-90") false = Except.ok its90Quad := rfl

lemma dinQuad_A : ((dinQuad.A : ℚ) : ℝ) = 977 / 250000 := by
  show ((3.9080e-3 : ℚ) : ℝ) = 977 / 250000
  norm_num

lemma dinQuad_B : ((dinQuad.B : ℚ) : ℝ) = -(58019 / 100000000000) := by
  show ((-5.8019e-7 : ℚ) : ℝ) = -(58019 / 100000000000)
  norm_num

lemma dinQuad_C : dinQuad.C = 0 := rfl

lemma dinQuad_Cr : ((dinQuad.C : ℚ) : ℝ) = 0 := by
  show ((0 : ℚ) : ℝ) = 0
  norm_num

lemma americanQuad_A : ((americanQuad.A : ℚ) : ℝ) = 9923 / 2500000 := by
  show ((3.9692e-3 : ℚ) : ℝ) = 9923 / 2500000
  norm_num

lemma americanQuad_B : ((americanQuad.B : ℚ) : ℝ) = -(11699 / 20000000000) := by
  show ((-5.8495e-7 : ℚ) : ℝ) = -(11699 / 20000000000)
  norm_num

lemma its90Quad_A : ((its90Quad.A : ℚ) : ℝ) = 4981 / 1250000 := by
  show ((3.9848e-3 : ℚ) : ℝ) = 4981 / 1250000
  norm_num

lemma its90Quad_B : ((its90Quad.B : ℚ) : ℝ) = -(587 / 1000000000) := by
  show ((-5.870e-7 : ℚ) : ℝ) = -(587 / 1000000000)
  norm_num

lemma temperature_quad (m : CallendarVanDusen) (hC : m.C = 0) {r0 : ℝ}
    (h0 : r0 ≠ 0) (r : ℝ) :
    m.temperature r0 r =
      some (secondRoot (-(r0 * (m.B : ℝ))) (-(r0 * (m.A : ℝ))) (r - r0)) := by
  unfold CallendarVanDusen.temperature CallendarVanDusen.solveList
  rw [if_neg h0, if_pos hC]
  rfl

lemma secondRoot_nonneg (a b c : ℝ) (hd : 0 ≤ b ^ 2 - 4 * a * c) :
    secondRoot a b c =
      ((-b / (2 * a) + (2 * |a|)⁻¹ * Real.sqrt (b ^ 2 - 4 * a * c) : ℝ) : ℂ) := by
  unfold secondRoot sqrtC
  rw [if_pos hd, ← Complex.ofReal_mul, ← Complex.ofReal_add]

lemma secondRoot_neg_im (a b c : ℝ) (hd : b ^ 2 - 4 * a * c < 0) :
    (secondRoot a b c).im = (2 * |a|)⁻¹ * Real.sqrt (-(b ^ 2 - 4 * a * c)) := by
  unfold secondRoot sqrtC
  rw [if_neg (not_le.mpr hd), ← mul_assoc, ← Complex.ofReal_mul]
  rw [Complex.add_im, Complex.mul_I_im, Complex.ofReal_im, Complex.ofReal_re,
    zero_add]

lemma dinQuad_temperature (r : ℝ) :
    dinQuad.temperature 500 r =
      some (secondRoot (58019 / 200000000) (-(977 / 500)) (r - 500)) := by
  rw [temperature_quad dinQuad rfl (by norm_num) r, dinQuad_A, dinQuad_B]
  norm_num

lemma temp_at_r0 (m : CallendarVanDusen) (hC : m.C = 0) {r0 : ℝ}
    (h0 : 0 < r0) (hA : 0 < ((m.A : ℚ) : ℝ)) (hB : ((m.B : ℚ) : ℝ) < 0) :
    m.temperature r0 r0 = some ((((m.A : ℚ) : ℝ) / -((m.B : ℚ) : ℝ) : ℝ) : ℂ) := by
  rw [temperature_quad m hC (ne_of_gt h0) r0]
  have ha : (0 : ℝ) < -(r0 * ((m.B : ℚ) : ℝ)) := by nlinarith
  have hd : (0 : ℝ) ≤ (-(r0 * ((m.A : ℚ) : ℝ))) ^ 2 -
      4 * -(r0 * ((m.B : ℚ) : ℝ)) * (r0 - r0) := by
    rw [sub_self, mul_zero, sub_zero]
    positivity
  rw [secondRoot_nonneg _ _ _ hd]
  have hs : Real.sqrt ((-(r0 * ((m.A : ℚ) : ℝ))) ^ 2 -
      4 * -(r0 * ((m.B : ℚ) : ℝ)) * (r0 - r0)) = r0 * ((m.A : ℚ) : ℝ) := by
    rw [sub_self, mul_zero, sub_zero, neg_sq]
    exact Real.sqrt_sq (by positivity)
  rw [hs, abs_of_pos ha]
  have hr : - -(r0 * ((m.A : ℚ) : ℝ)) / (2 * -(r0 * ((m.B : ℚ) : ℝ))) +
      (2 * -(r0 * ((m.B : ℚ) : ℝ)))⁻¹ * (r0 * ((m.A : ℚ) : ℝ)) =
      ((m.A : ℚ) : ℝ) / -((m.B : ℚ) : ℝ) := by
    have h1 : r0 ≠ 0 := ne_of_gt h0
    have h2 : ((m.B : ℚ) : ℝ) ≠ 0 := ne_of_lt hB
    field_simp
    ring
  rw [hr]

lemma bind_some_eq {α β : Type} (a : α) (f : α → Option β) :
    (Option.some a).bind f = f a := rfl

lemma dinQuad_complex_of_neg (r : ℝ)
    (hd : (-(977 / 500 : ℝ)) ^ 2 - 4 * (58019 / 200000000) * (r - 500) < 0) :
    ∃ z, dinQuad.temperature 500 r = some z ∧ z.im ≠ 0 := by
  refine ⟨_, dinQuad_temperature r, ?_⟩
  rw [secondRoot_neg_im _ _ _ hd]
  have h1 : 0 < Real.sqrt
      (-((-(977 / 500 : ℝ)) ^ 2 - 4 * (58019 / 200000000) * (r - 500))) :=
    Real.sqrt_pos.mpr (by linarith)
  have h2 : (0 : ℝ) < (2 * |(58019 / 200000000 : ℝ)|)⁻¹ := by positivity
  exact ne_of_gt (mul_pos h2 h1)

lemma quad_root_satisfies (a b c : ℝ) (ha : 0 < a)
    (hd : 0 ≤ b ^ 2 - 4 * a * c) :
    a * (-b / (2 * a) + (2 * |a|)⁻¹ * Real.sqrt (b ^ 2 - 4 * a * c)) ^ 2 +
      b * (-b / (2 * a) + (2 * |a|)⁻¹ * Real.sqrt (b ^ 2 - 4 * a * c)) +
      c = 0 := by
  have hs : Real.sqrt (b ^ 2 - 4 * a * c) ^ 2 = b ^ 2 - 4 * a * c :=
    Real.sq_sqrt hd
  rw [abs_of_pos ha]
  have ha' : a ≠ 0 := ne_of_gt ha
  field_simp
  linear_combination (16 * a ^ 5) * hs

lemma resistance_sub (m : CallendarVanDusen) (hC : ((m.C : ℚ) : ℝ) = 0)
    (r0 r t : ℝ) :
    m.resistance r0 t - r =
      -(-(r0 * ((m.B : ℚ) : ℝ)) * t ^ 2 + -(r0 * ((m.A : ℚ) : ℝ)) * t +
        (r - r0)) := by
  unfold CallendarVanDusen.resistance
  rw [hC]
  ring

/-- Claim C1.  The claim asserts that for every standard and subzero
flag and every measured resistance in the rated range, `temperature`
returns the physically valid root, lying in roughly [-200, 850] and
continuous with `t = 0` at `r = r0`.  The code violates this: with the
default standard (subzero disabled), `r0 = 500` and the in-range reading
`r_measured = 200`, entry `1` of the solution list is the larger,
nonphysical quadratic root, a real value above 850 (about 6885.9, versus
the physical root of about -150.2). -/
theorem c1_selected_root_is_nonphysical :
    CallendarVanDusen.init ("DIN43760") false = Except.ok dinQuad ∧
    dinQuad.resistance 500 (-200) < 200 ∧ 200 < dinQuad.resistance 500 850 ∧
    ∃ z, dinQuad.temperature 500 200 = some z ∧ z.im = 0 ∧ 850 < z.re := by
  refine ⟨init_din, ?_, ?_, ?_⟩
  · unfold CallendarVanDusen.resistance
    rw [dinQuad_A, dinQuad_B, dinQuad_Cr]
    norm_num
  · unfold CallendarVanDusen.resistance
    rw [dinQuad_A, dinQuad_B, dinQuad_Cr]
    norm_num
  · have h := dinQuad_temperature 200
    rw [secondRoot_nonneg _ _ _ (by norm_num)] at h
    refine ⟨_, h, Complex.ofReal_im _, ?_⟩
    rw [Complex.ofReal_re]
    have hs : 0 ≤ (2 * |(58019 / 200000000 : ℝ)|)⁻¹ *
        Real.sqrt ((-(977 / 500 : ℝ)) ^ 2 -
          4 * (58019 / 200000000) * (200 - 500)) := by
      positivity
    have hm : (850 : ℝ) < - -(977 / 500) / (2 * (58019 / 200000000)) := by
      norm_num
    linarith

/-- Claim C2.  Constructing the model with a recognized standard sets
`(A, B)` to the table values exactly, and `C` to the standard-specific
value when `subzero` is true and to `0` exactly when it is false. -/
theorem c2_coefficient_table : ∀ sz : Bool,
    (∃ m, CallendarVanDusen.init ("DIN43760") sz = Except.ok m ∧
      m.A = 3.9080e-3 ∧ m.B = -5.8019e-7 ∧
      m.C = if sz then -4.2735e-12 else 0) ∧
    (∃ m, CallendarVanDusen.init ("American") sz = Except.ok m ∧
      m.A = 3.9692e-3 ∧ m.B = -5.8495e-7 ∧
      m.C = if sz then -4.2325e-12 else 0) ∧
    (∃ m, CallendarVanDusen.init ("ITS-90") sz = Except.ok m ∧
      m.A = 3.9848e-3 ∧ m.B = -5.870e-7 ∧
      m.C = if sz then -4.0000e-12 else 0) := by
  intro sz
  exact ⟨⟨_, rfl, rfl, rfl, rfl⟩, ⟨_, rfl, rfl, rfl, rfl⟩,
    ⟨_, rfl, rfl, rfl, rfl⟩⟩

/-- Claim C3.  Any standard name outside the recognized set makes the
constructor fail with the formatted configuration error and no instance
is produced, while the three recognized names always succeed. -/
theorem c3_unknown_standard_errors :
    (∀ (s : String) (sz : Bool),
      s ≠ ("DIN43760") → s ≠ ("American") → s ≠ ("ITS-90") →
      CallendarVanDusen.init s sz =
        Except.error ("Unknown standard " ++ s)) ∧
    ∀ sz : Bool,
      (∃ m, CallendarVanDusen.init ("DIN43760") sz = Except.ok m) ∧
      (∃ m, CallendarVanDusen.init ("American") sz = Except.ok m) ∧
      (∃ m, CallendarVanDusen.init ("ITS-90") sz = Except.ok m) := by
  constructor
  · intro s sz h1 h2 h3
    unfold CallendarVanDusen.init
    rw [if_neg h1, if_neg h2, if_neg h3]
  · intro sz
    exact ⟨⟨_, rfl⟩, ⟨_, rfl⟩, ⟨_, rfl⟩⟩

/-- Witness for C3 at the concrete unknown standard name used by the
specification. -/
theorem c3_unknown_standard_errors_witness :
    CallendarVanDusen.init ("Foo") true =
      Except.error ("Unknown standard " ++ "Foo") ∧
    ∃ m, CallendarVanDusen.init ("DIN43760") true = Except.ok m :=
  ⟨c3_unknown_standard_errors.1 ("Foo") true (by decide) (by decide)
    (by decide), (c3_unknown_standard_errors.2 true).1⟩

/-- Claim C4.  The claim asserts that for each of the three standards
with subzero disabled, `temperature(r0, r0)` is `0` within `1e-6`.  The
code violates it: entry `1` of the solution list evaluated at
`r_measured = r0` is the nonphysical root `A/(-B)` (about 6736 for
DIN43760), far above the tolerance.  Proved here at `r0 = 500` for all
three standards. -/
theorem c4_temperature_at_r0_not_zero :
    (CallendarVanDusen.init ("DIN43760") false = Except.ok dinQuad ∧
      ∃ z, dinQuad.temperature 500 500 = some z ∧ z.im = 0 ∧
        1e-6 < z.re) ∧
    (CallendarVanDusen.init ("American") false = Except.ok americanQuad ∧
      ∃ z, americanQuad.temperature 500 500 = some z ∧ z.im = 0 ∧
        1e-6 < z.re) ∧
    (CallendarVanDusen.init ("ITS-90") false = Except.ok its90Quad ∧
      ∃ z, its90Quad.temperature 500 500 = some z ∧ z.im = 0 ∧
        1e-6 < z.re) := by
  refine ⟨⟨init_din, ?_⟩, ⟨init_american, ?_⟩, ⟨init_its90, ?_⟩⟩
  · have h := temp_at_r0 dinQuad rfl (by norm_num : (0 : ℝ) < 500)
      (by rw [dinQuad_A]; norm_num) (by rw [dinQuad_B]; norm_num)
    refine ⟨_, h, Complex.ofReal_im _, ?_⟩
    rw [Complex.ofReal_re, dinQuad_A, dinQuad_B]
    norm_num
  · have h := temp_at_r0 americanQuad rfl (by norm_num : (0 : ℝ) < 500)
      (by rw [americanQuad_A]; norm_num) (by rw [americanQuad_B]; norm_num)
    refine ⟨_, h, Complex.ofReal_im _, ?_⟩
    rw [Complex.ofReal_re, americanQuad_A, americanQuad_B]
    norm_num
  · have h := temp_at_r0 its90Quad rfl (by norm_num : (0 : ℝ) < 500)
      (by rw [its90Quad_A]; norm_num) (by rw [its90Quad_B]; norm_num)
    refine ⟨_, h, Complex.ofReal_im _, ?_⟩
    rw [Complex.ofReal_re, its90Quad_A, its90Quad_B]
    norm_num

/-- Claim C5.  The claim asserts strict monotone increase of the
returned temperature in the measured resistance.  The code violates it:
on the selected branch the value strictly decreases, shown here at the
in-range readings `r1 = 200 < r2 = 500` for the default standard. -/
theorem c5_temperature_not_increasing :
    CallendarVanDusen.init ("DIN43760") false = Except.ok dinQuad ∧
    dinQuad.resistance 500 (-200) < 200 ∧
    500 < dinQuad.resistance 500 850 ∧
    ∃ z1 z2, dinQuad.temperature 500 200 = some z1 ∧
      dinQuad.temperature 500 500 = some z2 ∧
      z1.im = 0 ∧ z2.im = 0 ∧ z2.re < z1.re := by
  refine ⟨init_din, ?_, ?_, ?_⟩
  · unfold CallendarVanDusen.resistance
    rw [dinQuad_A, dinQuad_B, dinQuad_Cr]
    norm_num
  · unfold CallendarVanDusen.resistance
    rw [dinQuad_A, dinQuad_B, dinQuad_Cr]
    norm_num
  · have h1 := dinQuad_temperature 200
    rw [secondRoot_nonneg _ _ _ (by norm_num)] at h1
    have h2 := dinQuad_temperature 500
    rw [secondRoot_nonneg _ _ _ (by norm_num)] at h2
    refine ⟨_, _, h1, h2, Complex.ofReal_im _, Complex.ofReal_im _, ?_⟩
    rw [Complex.ofReal_re, Complex.ofReal_re]
    have hs : Real.sqrt ((-(977 / 500 : ℝ)) ^ 2 -
        4 * (58019 / 200000000) * (500 - 500)) <
        Real.sqrt ((-(977 / 500 : ℝ)) ^ 2 -
          4 * (58019 / 200000000) * (200 - 500)) :=
      Real.sqrt_lt_sqrt (by norm_num) (by norm_num)
    have hk : (0 : ℝ) < (2 * |(58019 / 200000000 : ℝ)|)⁻¹ := by positivity
    have hmul := mul_lt_mul_of_pos_left hs hk
    linarith

/-- Claim C6.  The claim asserts the round trip
`temperature(r0, resistance(r0, t)) = t` within tolerance.  The code
violates it: for the default standard, `r0 = 500` and `t = 100`, the
forward resistance is `692.49905` and the returned entry is the
nonphysical root, larger than `100 + 1e-6` (about 6646, versus the
expected 100). -/
theorem c6_roundtrip_not_recovered :
    CallendarVanDusen.init ("DIN43760") false = Except.ok dinQuad ∧
    ∃ z, dinQuad.temperature 500 (dinQuad.resistance 500 100) = some z ∧
      z.im = 0 ∧ 100 + 1e-6 < z.re := by
  refine ⟨init_din, ?_⟩
  have hr : dinQuad.resistance 500 100 = 13849981 / 20000 := by
    unfold CallendarVanDusen.resistance
    rw [dinQuad_A, dinQuad_B, dinQuad_Cr]
    norm_num
  rw [hr]
  have h := dinQuad_temperature (13849981 / 20000)
  rw [secondRoot_nonneg _ _ _ (by norm_num)] at h
  refine ⟨_, h, Complex.ofReal_im _, ?_⟩
  rw [Complex.ofReal_re]
  have hs : 0 ≤ (2 * |(58019 / 200000000 : ℝ)|)⁻¹ *
      Real.sqrt ((-(977 / 500 : ℝ)) ^ 2 -
        4 * (58019 / 200000000) * (13849981 / 20000 - 500)) := by
    positivity
  have hm : (100 : ℝ) + 1e-6 < - -(977 / 500) / (2 * (58019 / 200000000)) := by
    norm_num
  linarith

/-- Counterexample to claim C7.  The claim asserts that `temperature`
rejects every `r0 ≤ 0` with a domain error and returns no value; the
code contains no such validation and, at `r0 = -500`, returns a value
(the symbolic quadratic still has two branches). -/
theorem c7_counterexample_returns_value :
    (dinQuad.temperature (-500) 200).isSome = true := by
  rw [temperature_quad dinQuad rfl (by norm_num : (-500 : ℝ) ≠ 0) 200]
  rfl

/-- Amended claim C7.  `temperature` performs no domain validation: for
`r0 = 0` it fails with an uncaught `IndexError` (no value, but also no
typed domain error), and for every `r0 < 0` it silently returns a
value. -/
theorem c7_amended_no_domain_error :
    ∀ r : ℝ, dinQuad.temperature 0 r = none ∧
      ∀ r0 : ℝ, r0 < 0 → (dinQuad.temperature r0 r).isSome = true := by
  intro r
  constructor
  · unfold CallendarVanDusen.temperature CallendarVanDusen.solveList
    rw [if_pos rfl]
    rfl
  · intro r0 h
    rw [temperature_quad dinQuad rfl (ne_of_lt h) r]
    rfl

/-- Witness for the amended claim C7 at `r = 200`, `r0 = -500`. -/
theorem c7_amended_no_domain_error_witness :
    dinQuad.temperature 0 200 = none ∧
      (dinQuad.temperature (-500) 200).isSome = true :=
  ⟨(c7_amended_no_domain_error 200).1,
    (c7_amended_no_domain_error 200).2 (-500) (by norm_num)⟩

/-- Counterexample to claim C8.  The claim asserts a result-level
"No Solution" failure when no real root exists; instead, at `r0 = 500`
and `r_measured = 4000` (beyond the maximum of the quadratic, so the
discriminant is negative) the code silently returns a complex value. -/
theorem c8_counterexample_complex_result :
    ∃ z, dinQuad.temperature 500 4000 = some z ∧ z.im ≠ 0 :=
  dinQuad_complex_of_neg 4000 (by norm_num)

/-- Amended claim C8.  For every standard with subzero disabled, every
`r0 > 0` and every `r_measured` for which the polynomial has no real
root in the physically valid range `[-200, 850]`, `temperature` does not
fail with a result-level "No Solution" outcome: it silently returns a
value, which is either complex (nonzero imaginary part, when the
quadratic has no real root at all) or a real value outside
`[-200, 850]`. -/
theorem c8_amended_silent_return :
    ∀ m : CallendarVanDusen,
      (m = dinQuad ∨ m = americanQuad ∨ m = its90Quad) →
      ∀ r0 r : ℝ, 0 < r0 →
        (∀ t : ℝ, -200 ≤ t → t ≤ 850 → m.resistance r0 t ≠ r) →
        ∃ z, m.temperature r0 r = some z ∧
          (z.im ≠ 0 ∨ z.re < -200 ∨ 850 < z.re) := by
  intro m hm r0 r h0 hroot
  have hC : m.C = 0 := by
    rcases hm with h | h | h <;> subst h <;> rfl
  have hB : ((m.B : ℚ) : ℝ) < 0 := by
    rcases hm with h | h | h <;> subst h <;>
      norm_num [dinQuad_B, americanQuad_B, its90Quad_B]
  have ha : (0 : ℝ) < -(r0 * ((m.B : ℚ) : ℝ)) := by nlinarith
  have htemp := temperature_quad m hC (ne_of_gt h0) r
  by_cases hd : 0 ≤ (-(r0 * ((m.A : ℚ) : ℝ))) ^ 2 -
      4 * -(r0 * ((m.B : ℚ) : ℝ)) * (r - r0)
  · rw [secondRoot_nonneg _ _ _ hd] at htemp
    refine ⟨_, htemp, ?_⟩
    rw [Complex.ofReal_im, Complex.ofReal_re]
    right
    have hx_root := quad_root_satisfies (-(r0 * ((m.B : ℚ) : ℝ)))
      (-(r0 * ((m.A : ℚ) : ℝ))) (r - r0) ha hd
    have hres : m.resistance r0
        (- -(r0 * ((m.A : ℚ) : ℝ)) / (2 * -(r0 * ((m.B : ℚ) : ℝ))) +
          (2 * |(-(r0 * ((m.B : ℚ) : ℝ)))|)⁻¹ *
            Real.sqrt ((-(r0 * ((m.A : ℚ) : ℝ))) ^ 2 -
              4 * -(r0 * ((m.B : ℚ) : ℝ)) * (r - r0))) = r := by
      have hC' : ((m.C : ℚ) : ℝ) = 0 := by rw [hC]; exact Rat.cast_zero
      have h1 := resistance_sub m hC' r0 r
        (- -(r0 * ((m.A : ℚ) : ℝ)) / (2 * -(r0 * ((m.B : ℚ) : ℝ))) +
          (2 * |(-(r0 * ((m.B : ℚ) : ℝ)))|)⁻¹ *
            Real.sqrt ((-(r0 * ((m.A : ℚ) : ℝ))) ^ 2 -
              4 * -(r0 * ((m.B : ℚ) : ℝ)) * (r - r0)))
      rw [hx_root] at h1
      linarith
    by_contra hcon
    push_neg at hcon
    exact hroot _ hcon.1 hcon.2 hres
  · rw [not_le] at hd
    refine ⟨_, htemp, Or.inl ?_⟩
    rw [secondRoot_neg_im _ _ _ hd]
    have h1 : 0 < Real.sqrt (-((-(r0 * ((m.A : ℚ) : ℝ))) ^ 2 -
        4 * -(r0 * ((m.B : ℚ) : ℝ)) * (r - r0))) :=
      Real.sqrt_pos.mpr (by linarith)
    have h2 : (0 : ℝ) < (2 * |(-(r0 * ((m.B : ℚ) : ℝ)))|)⁻¹ := by
      have h3 : (0 : ℝ) < |(-(r0 * ((m.B : ℚ) : ℝ)))| := abs_pos.mpr (ne_of_gt ha)
      positivity
    exact ne_of_gt (mul_pos h2 h1)

/-- Witness for the amended claim C8 at the default standard,
`r0 = 500`, `r_measured = 4000`: on `[-200, 850]` the forward resistance
never reaches `4000`, and the returned value is complex or out of
range. -/
theorem c8_amended_silent_return_witness :
    (dinQuad = dinQuad ∨ dinQuad = americanQuad ∨ dinQuad = its90Quad) ∧
    (0 : ℝ) < 500 ∧
    (∀ t : ℝ, -200 ≤ t → t ≤ 850 → dinQuad.resistance 500 t ≠ 4000) ∧
    ∃ z, dinQuad.temperature 500 4000 = some z ∧
      (z.im ≠ 0 ∨ z.re < -200 ∨ 850 < z.re) := by
  have hroot : ∀ t : ℝ, -200 ≤ t → t ≤ 850 → dinQuad.resistance 500 t ≠ 4000 := by
    intro t h1 h2
    unfold CallendarVanDusen.resistance
    rw [dinQuad_A, dinQuad_B, dinQuad_Cr]
    intro heq
    nlinarith [sq_nonneg t]
  exact ⟨Or.inl rfl, by norm_num, hroot,
    c8_amended_silent_return dinQuad (Or.inl rfl) 500 4000 (by norm_num) hroot⟩

/-- Claim C9.  Run with no arguments, the script constructs the model
with the default standard `DIN43760` and subzero disabled, evaluates the
fixed reading `r0 = 500.0`, `r_measured = 200.0`, and prints exactly the
two lines `Resistance = ...` and `Temperature = ...`, in that order,
each number rendered by the `%g` format (abstracted as `fmt`). -/
theorem c9_script_prints_two_lines : ∀ fmt : ℝ → String,
    ∃ tv : ℝ, scriptRun fmt =
      some ["Resistance = " ++ fmt 200, "Temperature = " ++ fmt tv] := by
  intro fmt
  have h := dinQuad_temperature 200
  rw [secondRoot_nonneg _ _ _ (by norm_num)] at h
  refine ⟨- -(977 / 500) / (2 * (58019 / 200000000)) +
    (2 * |(58019 / 200000000 : ℝ)|)⁻¹ *
      Real.sqrt ((-(977 / 500 : ℝ)) ^ 2 -
        4 * (58019 / 200000000) * (200 - 500)), ?_⟩
  have e1 : scriptRun fmt = (dinQuad.temperature 500 200).bind fun t =>
      if t.im = 0 then
        some ["Resistance = " ++ fmt 200, "Temperature = " ++ fmt t.re]
      else none := rfl
  rw [e1, h, bind_some_eq]
  simp only [Complex.ofReal_im, Complex.ofReal_re, eq_self_iff_true, if_true]

/-- Claim C10.  `temperature` indexes the solution list at position `1`
with no guard, so whenever the list has fewer than two entries the call
produces no value (the uncaught `IndexError`); in particular `r0 = 0`
degenerates the equation so that the solver returns no roots at all. -/
theorem c10_unguarded_index :
    (∀ (m : CallendarVanDusen) (r0 r : ℝ),
      (m.solveList r0 r).length < 2 → m.temperature r0 r = none) ∧
    ∀ (m : CallendarVanDusen) (r : ℝ),
      (m.solveList 0 r).length = 0 ∧ m.temperature 0 r = none := by
  constructor
  · intro m r0 r hlen
    unfold CallendarVanDusen.temperature
    exact List.get?_eq_none.mpr (by omega)
  · intro m r
    constructor
    · unfold CallendarVanDusen.solveList
      rw [if_pos rfl]
      rfl
    · unfold CallendarVanDusen.temperature CallendarVanDusen.solveList
      rw [if_pos rfl]
      rfl

/-- Witness for C10 at the concrete input `r0 = 0`, `r = 3`. -/
theorem c10_unguarded_index_witness :
    (dinQuad.solveList 0 3).length < 2 ∧ dinQuad.temperature 0 3 = none :=
  ⟨by
    have h := (c10_unguarded_index.2 dinQuad 3).1
    omega,
    c10_unguarded_index.1 dinQuad 0 3 (by
      have h := (c10_unguarded_index.2 dinQuad 3).1
      omega)⟩
